import Mathlib

/-!
Verification of the Gemini-Lens single-page image-editing application
(`src/App.tsx`, `src/types.ts`).  The React component's session state is
embedded as an explicit record, each event handler as a state-transforming
function, and the remote generative-model call as an oracle parameter
(`CallResult`) supplied to the edit workflow.
-/

namespace GeminiLens

/-- `SubPreset` from `src/types.ts`: a canned editing instruction. -/
structure SubPreset where
  id : String
  label : String
  prompt : String
deriving DecidableEq

/-- `HistoryItem` from `src/types.ts`: one completed edit kept for the session. -/
structure HistoryItem where
  id : String
  original : String
  edited : String
  prompt : String
  timestamp : Nat
deriving DecidableEq

/-- The component's session state: the `useState` hooks of `App`
(`src/App.tsx` lines 19-30). -/
structure AppState where
  isLoggedIn : Bool
  image : Option String
  originalMimeType : String
  editedImage : Option String
  isProcessing : Bool
  expandedCategoryId : Option String
  selectedSubPreset : Option SubPreset
  customPrompt : String
  history : List HistoryItem
  error : Option String
deriving DecidableEq

/-- A content part's inline payload (`part.inlineData` in the response,
and the request's first part). -/
structure InlineData where
  data : String
  mimeType : String
deriving DecidableEq

/-- One content part: inline image bytes and/or text, either may be absent. -/
structure Part where
  inlineData : Option InlineData
  text : Option String
deriving DecidableEq

/-- `candidate.content`: an optional ordered list of parts. -/
structure Content where
  parts : Option (List Part)
deriving DecidableEq

/-- One response candidate with optional content. -/
structure Candidate where
  content : Option Content
deriving DecidableEq

/-- The remote model's response: an optional candidate list
(`response.candidates` in `src/App.tsx` line 119). -/
structure GenResponse where
  candidates : Option (List Candidate)
deriving DecidableEq

/-- Settlement of the awaited `ai.models.generateContent` call: either a
response object or a thrown error whose `message` may be absent
(JavaScript `err.message?` optional chaining). -/
inductive CallResult where
  | ok (resp : GenResponse)
  | err (message : Option String)
deriving DecidableEq

/-- Substring containment on character lists, scanning left to right. -/
def containsSub : List Char → List Char → Bool
  | hay, sub =>
    match hay with
    | [] => sub.isEmpty
    | _ :: t => sub.isPrefixOf hay || containsSub t sub

/-- JavaScript `String.prototype.includes`. -/
def strIncludes (hay sub : String) : Bool :=
  containsSub hay.toList sub.toList

/-- `err.message?.includes(sub)`: `false` when `message` is absent
(optional chaining yields `undefined`, a falsy condition). -/
def errIncludes (message : Option String) (sub : String) : Bool :=
  match message with
  | some m => strIncludes m sub
  | none => false

/-- `src/App.tsx` line 99:
`customPrompt || (selectedSubPreset ? selectedSubPreset.prompt : "Enhance this image.")`.
The empty string is the only falsy string in JavaScript. -/
def promptText (customPrompt : String) (selectedSubPreset : Option SubPreset) : String :=
  if customPrompt = "" then
    match selectedSubPreset with
    | some sub => sub.prompt
    | none => "Enhance this image."
  else customPrompt

/-- `src/App.tsx` lines 125-131:
`setHistory(prev => [newItem, ...prev].slice(0, 10))`. -/
def historyUpdate (item : HistoryItem) (prev : List HistoryItem) : List HistoryItem :=
  (item :: prev).take 10

/-- `response.candidates?.[0]?.content?.parts` (`src/App.tsx` line 119):
the first candidate's content parts, `none` when any link is absent. -/
def partsOf (r : GenResponse) : Option (List Part) :=
  match r.candidates with
  | none => none
  | some cs =>
    match cs.head? with
    | none => none
    | some c =>
      match c.content with
      | none => none
      | some content => content.parts

/-- The `for (const part of ...) if (part.inlineData) { ...; break }` loop
of `src/App.tsx` lines 120-135: the first part carrying inline data. -/
def firstInlineData : List Part → Option InlineData
  | [] => none
  | p :: rest =>
    match p.inlineData with
    | some d => some d
    | none => firstInlineData rest

/-- `true` when the response carries no image-bearing part, either because
`candidates?.[0]?.content?.parts` is absent or because no part has
`inlineData` (the `!foundImage` condition of `src/App.tsx` line 138). -/
def noImagePart (r : GenResponse) : Bool :=
  match partsOf r with
  | none => true
  | some parts => (firstInlineData parts).isNone

/-- Structural-failure message, `src/App.tsx` line 139. -/
def noImageError : String :=
  "The AI finished but didn\x27t return an image. It might be due to safety filters or an complex prompt."

/-- Re-authentication message, `src/App.tsx` line 144. -/
def reconnectError : String :=
  "Account connection expired. Please reconnect your Google Project."

/-- Billing-guidance message, `src/App.tsx` line 147. -/
def billingError : String :=
  "Failed to edit image. Ensure your Google Cloud Project has billing enabled for credits."

/-- `processImage` (`src/App.tsx` lines 89-152).  `nowMs` stands for
`Date.now()` (the same tick is read for the item id and timestamp) and
`call` is the settlement of the awaited remote call.  The function runs
the whole async workflow to completion: early return when no image,
clear error and set in-flight, then the success / structural-failure /
catch branches, then the `finally` clearing the in-flight flag. -/
def processImage (s : AppState) (nowMs : Nat) (call : CallResult) : AppState :=
  match s.image with
  | none => s
  | some img =>
    let s1 : AppState := { s with error := none, isProcessing := true }
    let pText := promptText s.customPrompt s.selectedSubPreset
    let s2 : AppState :=
      match call with
      | CallResult.ok resp =>
        match partsOf resp with
        | some parts =>
          match firstInlineData parts with
          | some d =>
            let newImage := "data:image/png;base64," ++ d.data
            { s1 with
              editedImage := some newImage,
              history := historyUpdate
                { id := toString nowMs, original := img, edited := newImage,
                  prompt := pText, timestamp := nowMs } s1.history }
          | none => { s1 with error := some noImageError }
        | none => { s1 with error := some noImageError }
      | CallResult.err msg =>
        if errIncludes msg "Requested entity was not found" || errIncludes msg "API_KEY" then
          { s1 with error := some reconnectError, isLoggedIn := false }
        else
          { s1 with error := some billingError }
    { s2 with isProcessing := false }

/-- How the host credential bridge behaves during `handleLogin`: absent
(`window.aistudio?.openSelectKey` undefined), or present with the
selection dialog either resolving or throwing. -/
inductive BridgeBehavior where
  | absent
  | resolves
  | throws
deriving DecidableEq

/-- `handleLogin` (`src/App.tsx` lines 55-73): clear the error, then set
the authenticated flag in the bridge-present path after the dialog
resolves, in the bridge-absent fallback, and in the catch handler. -/
def handleLogin (s : AppState) (b : BridgeBehavior) : AppState :=
  let s1 : AppState := { s with error := none }
  match b with
  | BridgeBehavior.absent => { s1 with isLoggedIn := true }
  | BridgeBehavior.resolves => { s1 with isLoggedIn := true }
  | BridgeBehavior.throws => { s1 with isLoggedIn := true }

/-- The request sent by `processImage` (`src/App.tsx` lines 96-116):
model name, `image.split(',')[1]` (absent when the data URL holds no
comma, matching the JavaScript `undefined`), the source media type, and
the instruction text. -/
structure GenRequest where
  model : String
  imageData : Option String
  imageMimeType : String
  promptText : String
deriving DecidableEq

/-- The request `processImage` issues for a given state, `none` when no
source image is present (`src/App.tsx` lines 90, 96-116). -/
def requestOf (s : AppState) : Option GenRequest :=
  match s.image with
  | none => none
  | some img =>
    some { model := "gemini-2.5-flash-image",
           imageData := (img.splitOn ",")[1]?,
           imageMimeType := s.originalMimeType,
           promptText := promptText s.customPrompt s.selectedSubPreset }

/-- The user-triggered handlers that modify session state. -/
inductive Event where
  | login (b : BridgeBehavior)
  | upload (dataUrl : String) (mimeType : String)
  | toggleCategory (catId : String)
  | selectSub (sub : SubPreset)
  | editCustom (text : String)
  | submit (nowMs : Nat) (call : CallResult)
  | closeError
  | revert (edited : String)

/-- One handler invocation (`src/App.tsx`): `handleLogin`;
`handleImageUpload` lines 75-87 (set media type, set image, clear edited
image and error); the category toggle line 228; the sub-preset button
lines 247-250 (select it and clear the custom prompt); the custom-prompt
textarea lines 271-274 (set the text and clear the selection);
`processImage`; the error-banner CLOSE button line 313; the history
REVERT button line 385. -/
def step (s : AppState) (e : Event) : AppState :=
  match e with
  | Event.login b => handleLogin s b
  | Event.upload dataUrl mimeType =>
    { s with originalMimeType := mimeType, image := some dataUrl,
             editedImage := none, error := none }
  | Event.toggleCategory catId =>
    { s with expandedCategoryId :=
        if s.expandedCategoryId = some catId then none else some catId }
  | Event.selectSub sub =>
    { s with selectedSubPreset := some sub, customPrompt := "" }
  | Event.editCustom text =>
    { s with customPrompt := text, selectedSubPreset := none }
  | Event.submit nowMs call => processImage s nowMs call
  | Event.closeError => { s with error := none }
  | Event.revert edited => { s with editedImage := some edited }

/-- The initial `useState` values (`src/App.tsx` lines 19-30). -/
def initialState : AppState :=
  { isLoggedIn := false, image := none, originalMimeType := "image/png",
    editedImage := none, isProcessing := false, expandedCategoryId := none,
    selectedSubPreset := none, customPrompt := "", history := [],
    error := none }

/-- The session state reached by a sequence of handler invocations. -/
def run (events : List Event) : AppState :=
  events.foldl step initialState

/-- Written from the spec's words: an error text "contains a
billing/quota marker" (the code itself inspects no billing marker). -/
def containsBillingMarker (message : Option String) : Bool :=
  errIncludes message "billing" || errIncludes message "quota"

/-- Written from the spec's words: the effective instruction is the
free-text override if non-empty, else the selected sub-preset's
instruction, else the fixed default. -/
def specEffectiveInstruction (custom : String) (preset : Option SubPreset) : String :=
  if custom ≠ "" then custom
  else
    match preset with
    | some sub => sub.prompt
    | none => "Enhance this image."

/-! ### Concrete fixtures used by witnesses and counterexamples -/

/-- A data URL as produced by `FileReader.readAsDataURL`. -/
def wImageUrl : String := "data:image/png;base64,QUJD"

/-- An authenticated session holding a source image and no other activity. -/
def wState : AppState :=
  { isLoggedIn := true, image := some wImageUrl, originalMimeType := "image/png",
    editedImage := none, isProcessing := false, expandedCategoryId := none,
    selectedSubPreset := none, customPrompt := "", history := [], error := none }

/-- A text-only content part. -/
def wPartText : Part := { inlineData := none, text := some "Here is your edit." }

/-- Inline image bytes returned by the model. -/
def wInline : InlineData := { data := "RUZH", mimeType := "image/png" }

/-- An image-bearing content part. -/
def wPartImage : Part := { inlineData := some wInline, text := none }

/-- A response whose first candidate carries a text part followed by an
image-bearing part. -/
def wResp : GenResponse :=
  { candidates := some [{ content := some { parts := some [wPartText, wPartImage] } }] }

/-- A response whose first candidate carries only a text part. -/
def wRespNoImage : GenResponse :=
  { candidates := some [{ content := some { parts := some [wPartText] } }] }

/-- An error text holding both a quota marker and the entity-not-found marker. -/
def quotaEntityMsg : String := "quota exceeded: Requested entity was not found"

/-- The `denoise` sub-preset from `src/constants` (`EDITING_PRESETS`). -/
def denoise : SubPreset :=
  { id := "denoise", label := "Remove Noise",
    prompt := "Remove digital noise and grain while preserving important textures." }

/-! ### Helper lemmas -/

/-- The loop takes the first image-bearing part: parts before it carry no
inline data. -/
lemma firstInlineData_append (pre : List Part) (p : Part) (post : List Part)
    (d : InlineData) (hpre : ∀ q ∈ pre, q.inlineData = none)
    (hp : p.inlineData = some d) :
    firstInlineData (pre ++ p :: post) = some d := by
  induction pre with
  | nil => simp only [List.nil_append, firstInlineData, hp]
  | cons q rest ih =>
    have hq : q.inlineData = none := hpre q (List.mem_cons_self q rest)
    have hrest : firstInlineData (rest ++ p :: post) = some d :=
      ih (fun r hr => hpre r (List.mem_cons_of_mem q hr))
    simp only [List.cons_append, firstInlineData, hq]
    exact hrest

/-- `processImage` on a state with no source image: early return. -/
lemma processImage_none (s : AppState) (nowMs : Nat) (call : CallResult)
    (h : s.image = none) : processImage s nowMs call = s := by
  simp only [processImage, h]

/-- `processImage` when the response's first candidate has parts whose
first inline payload is `d`. -/
lemma processImage_ok_some (s : AppState) (img : String) (resp : GenResponse)
    (parts : List Part) (d : InlineData) (nowMs : Nat)
    (himg : s.image = some img) (hparts : partsOf resp = some parts)
    (hfi : firstInlineData parts = some d) :
    processImage s nowMs (CallResult.ok resp) =
      { s with
        error := none,
        isProcessing := false,
        editedImage := some ("data:image/png;base64," ++ d.data),
        history := historyUpdate
          { id := toString nowMs, original := img,
            edited := "data:image/png;base64," ++ d.data,
            prompt := promptText s.customPrompt s.selectedSubPreset,
            timestamp := nowMs } s.history } := by
  simp only [processImage, himg, hparts, hfi]

/-- `processImage` when `candidates?.[0]?.content?.parts` is absent. -/
lemma processImage_ok_noparts (s : AppState) (img : String)
    (resp : GenResponse) (nowMs : Nat)
    (himg : s.image = some img) (hparts : partsOf resp = none) :
    processImage s nowMs (CallResult.ok resp) =
      { s with error := some noImageError, isProcessing := false } := by
  simp only [processImage, himg, hparts]

/-- `processImage` when parts are present but none carries inline data. -/
lemma processImage_ok_noinline (s : AppState) (img : String)
    (resp : GenResponse) (parts : List Part) (nowMs : Nat)
    (himg : s.image = some img) (hparts : partsOf resp = some parts)
    (hfi : firstInlineData parts = none) :
    processImage s nowMs (CallResult.ok resp) =
      { s with error := some noImageError, isProcessing := false } := by
  simp only [processImage, himg, hparts, hfi]

/-- `processImage` on a thrown error matching an auth marker. -/
lemma processImage_err_auth (s : AppState) (img : String) (m : Option String)
    (nowMs : Nat) (himg : s.image = some img)
    (hc : (errIncludes m "Requested entity was not found"
        || errIncludes m "API_KEY") = true) :
    processImage s nowMs (CallResult.err m) =
      { s with error := some reconnectError, isLoggedIn := false,
               isProcessing := false } := by
  simp [processImage, himg, hc]

/-- `processImage` on a thrown error matching no auth marker. -/
lemma processImage_err_other (s : AppState) (img : String) (m : Option String)
    (nowMs : Nat) (himg : s.image = some img)
    (hc : (errIncludes m "Requested entity was not found"
        || errIncludes m "API_KEY") = false) :
    processImage s nowMs (CallResult.err m) =
      { s with error := some billingError, isProcessing := false } := by
  simp [processImage, himg, hc]

/-- One history update is a prepend that keeps at most the 9 previous items. -/
lemma historyUpdate_eq (item : HistoryItem) (prev : List HistoryItem) :
    historyUpdate item prev = item :: prev.take 9 := by
  rw [historyUpdate, show (10 : Nat) = 9 + 1 from rfl, List.take_succ_cons]

/-- `processImage` never grows the history past 10 items. -/
lemma processImage_history_le (s : AppState) (nowMs : Nat) (call : CallResult)
    (h : s.history.length ≤ 10) :
    (processImage s nowMs call).history.length ≤ 10 := by
  cases himg : s.image with
  | none => rw [processImage_none s nowMs call himg]; exact h
  | some img =>
    cases call with
    | ok resp =>
      cases hparts : partsOf resp with
      | none => rw [processImage_ok_noparts s img resp nowMs himg hparts]; exact h
      | some parts =>
        cases hfi : firstInlineData parts with
        | none =>
          rw [processImage_ok_noinline s img resp parts nowMs himg hparts hfi]
          exact h
        | some d =>
          rw [processImage_ok_some s img resp parts d nowMs himg hparts hfi]
          show (historyUpdate _ s.history).length ≤ 10
          rw [historyUpdate]
          exact List.length_take_le 10 _
    | err m =>
      cases hc : (errIncludes m "Requested entity was not found"
          || errIncludes m "API_KEY") with
      | true => rw [processImage_err_auth s img m nowMs himg hc]; exact h
      | false => rw [processImage_err_other s img m nowMs himg hc]; exact h

/-- `processImage` touches neither the selected sub-preset nor the custom
prompt. -/
lemma processImage_preserves_selection (s : AppState) (nowMs : Nat)
    (call : CallResult) :
    (processImage s nowMs call).selectedSubPreset = s.selectedSubPreset
    ∧ (processImage s nowMs call).customPrompt = s.customPrompt := by
  cases himg : s.image with
  | none => rw [processImage_none s nowMs call himg]; exact ⟨rfl, rfl⟩
  | some img =>
    cases call with
    | ok resp =>
      cases hparts : partsOf resp with
      | none =>
        rw [processImage_ok_noparts s img resp nowMs himg hparts]
        exact ⟨rfl, rfl⟩
      | some parts =>
        cases hfi : firstInlineData parts with
        | none =>
          rw [processImage_ok_noinline s img resp parts nowMs himg hparts hfi]
          exact ⟨rfl, rfl⟩
        | some d =>
          rw [processImage_ok_some s img resp parts d nowMs himg hparts hfi]
          exact ⟨rfl, rfl⟩
    | err m =>
      cases hc : (errIncludes m "Requested entity was not found"
          || errIncludes m "API_KEY") with
      | true => rw [processImage_err_auth s img m nowMs himg hc]; exact ⟨rfl, rfl⟩
      | false => rw [processImage_err_other s img m nowMs himg hc]; exact ⟨rfl, rfl⟩

/-- A predicate preserved by every handler holds in every reachable state. -/
lemma foldl_step_inv (P : AppState → Prop)
    (hstep : ∀ s e, P s → P (step s e)) :
    ∀ (events : List Event) (s : AppState), P s → P (events.foldl step s) := by
  intro events
  induction events with
  | nil => intro s hs; exact hs
  | cons e rest ih => intro s hs; exact ih (step s e) (hstep s e hs)

/-- No handler grows the history past 10 items. -/
lemma step_history_le (s : AppState) (e : Event)
    (h : s.history.length ≤ 10) : (step s e).history.length ≤ 10 := by
  cases e with
  | login b => cases b <;> exact h
  | upload dataUrl mimeType => exact h
  | toggleCategory catId => exact h
  | selectSub sub => exact h
  | editCustom t => exact h
  | submit nowMs call => exact processImage_history_le s nowMs call h
  | closeError => exact h
  | revert edited => exact h

/-- Every handler preserves sub-preset/custom-prompt mutual exclusion. -/
lemma step_preserves_exclusion (s : AppState) (e : Event)
    (h : s.selectedSubPreset = none ∨ s.customPrompt = "") :
    (step s e).selectedSubPreset = none ∨ (step s e).customPrompt = "" := by
  cases e with
  | login b => cases b <;> exact h
  | upload dataUrl mimeType => exact h
  | toggleCategory catId => exact h
  | selectSub sub => exact Or.inr rfl
  | editCustom t => exact Or.inl rfl
  | submit nowMs call =>
    rcases processImage_preserves_selection s nowMs call with ⟨h1, h2⟩
    simp only [step]
    rw [h1, h2]; exact h
  | closeError => exact h
  | revert edited => exact h

/-- A message holding only the entity-not-found marker. -/
def entityMsg : String := "Requested entity was not found"

/-- A message holding a quota marker and no auth marker. -/
def quotaMsg : String := "quota exceeded"

/-- The session with the `denoise` sub-preset selected. -/
def wStatePreset : AppState := { wState with selectedSubPreset := some denoise }

/-! ### Claims -/

/-- Claim C1: with a source image present and a response whose parts hold
at least one inline image payload, the workflow takes the first
image-bearing part (parts before it carry none, parts after it are
ignored), stores the derived data URL as the current output, and
prepends a HistoryItem with the original image, the edited image and the
instruction used to the bounded history. -/
theorem processImage_first_image_result
    (s : AppState) (img : String) (resp : GenResponse)
    (pre post : List Part) (p : Part) (d : InlineData) (nowMs : Nat)
    (himg : s.image = some img)
    (hparts : partsOf resp = some (pre ++ p :: post))
    (hpre : ∀ q ∈ pre, q.inlineData = none)
    (hp : p.inlineData = some d) :
    processImage s nowMs (CallResult.ok resp) =
      { s with
        error := none,
        isProcessing := false,
        editedImage := some ("data:image/png;base64," ++ d.data),
        history := historyUpdate
          { id := toString nowMs, original := img,
            edited := "data:image/png;base64," ++ d.data,
            prompt := promptText s.customPrompt s.selectedSubPreset,
            timestamp := nowMs } s.history } :=
  processImage_ok_some s img resp (pre ++ p :: post) d nowMs himg hparts
    (firstInlineData_append pre p post d hpre hp)

/-- Witness for C1 at a concrete state and two-part response. -/
theorem processImage_first_image_result_witness :
    wState.image = some wImageUrl
    ∧ partsOf wResp = some ([wPartText] ++ wPartImage :: [])
    ∧ (∀ q ∈ [wPartText], q.inlineData = none)
    ∧ wPartImage.inlineData = some wInline
    ∧ processImage wState 7 (CallResult.ok wResp) =
        { wState with
          error := none,
          isProcessing := false,
          editedImage := some ("data:image/png;base64," ++ wInline.data),
          history := historyUpdate
            { id := toString 7, original := wImageUrl,
              edited := "data:image/png;base64," ++ wInline.data,
              prompt := promptText wState.customPrompt wState.selectedSubPreset,
              timestamp := 7 } wState.history } :=
  ⟨rfl, rfl, by decide, rfl,
    processImage_first_image_result wState wImageUrl wResp [wPartText] []
      wPartImage wInline 7 rfl rfl (by decide) rfl⟩

/-- Claim C2: with a source image present and a response carrying zero
image-bearing parts, the result image and history are unchanged, the
structural-failure message is set as the error, and the authenticated
flag is unchanged (so it remains true). -/
theorem processImage_structural_failure
    (s : AppState) (img : String) (resp : GenResponse) (nowMs : Nat)
    (himg : s.image = some img) (hno : noImagePart resp = true) :
    processImage s nowMs (CallResult.ok resp) =
      { s with error := some noImageError, isProcessing := false } := by
  cases hparts : partsOf resp with
  | none => exact processImage_ok_noparts s img resp nowMs himg hparts
  | some parts =>
    have hfi : (firstInlineData parts).isNone = true := by
      simpa [noImagePart, hparts] using hno
    exact processImage_ok_noinline s img resp parts nowMs himg hparts
      (Option.isNone_iff_eq_none.mp hfi)

/-- Witness for C2 at a concrete state and text-only response. -/
theorem processImage_structural_failure_witness :
    wState.image = some wImageUrl
    ∧ noImagePart wRespNoImage = true
    ∧ processImage wState 7 (CallResult.ok wRespNoImage) =
        { wState with error := some noImageError, isProcessing := false } :=
  ⟨rfl, by decide,
    processImage_structural_failure wState wImageUrl wRespNoImage 7 rfl (by decide)⟩

/-- Claim C3: a thrown error whose message text contains the
entity-not-found marker revokes the authenticated flag and sets the
re-authentication message. -/
theorem entity_not_found_revokes_auth
    (s : AppState) (img : String) (m : Option String) (nowMs : Nat)
    (himg : s.image = some img)
    (hent : errIncludes m "Requested entity was not found" = true) :
    processImage s nowMs (CallResult.err m) =
      { s with error := some reconnectError, isLoggedIn := false,
               isProcessing := false } :=
  processImage_err_auth s img m nowMs himg (by rw [hent]; rfl)

/-- Witness for C3 at a concrete state and error text. -/
theorem entity_not_found_revokes_auth_witness :
    wState.image = some wImageUrl
    ∧ errIncludes (some entityMsg) "Requested entity was not found" = true
    ∧ processImage wState 2 (CallResult.err (some entityMsg)) =
        { wState with error := some reconnectError, isLoggedIn := false,
                      isProcessing := false } :=
  ⟨rfl, by decide,
    entity_not_found_revokes_auth wState wImageUrl (some entityMsg) 2 rfl (by decide)⟩

/-- Counterexample to claim C4 as stated: an error text holding a
billing/quota marker together with the entity-not-found marker revokes
the authenticated flag and sets the re-authentication message, not the
billing one. -/
theorem billing_marker_claim_counterexample :
    containsBillingMarker (some quotaEntityMsg) = true
    ∧ wState.image = some wImageUrl
    ∧ wState.isLoggedIn = true
    ∧ (processImage wState 0 (CallResult.err (some quotaEntityMsg))).isLoggedIn = false
    ∧ (processImage wState 0 (CallResult.err (some quotaEntityMsg))).error
        = some reconnectError
    ∧ reconnectError ≠ billingError := by
  refine ⟨by decide, rfl, rfl, ?_, ?_, by decide⟩
  · rw [processImage_err_auth wState wImageUrl (some quotaEntityMsg) 0 rfl (by decide)]
  · rw [processImage_err_auth wState wImageUrl (some quotaEntityMsg) 0 rfl (by decide)]

/-- Claim C4 (amended): a thrown error whose message text contains a
billing/quota marker but neither the entity-not-found marker nor the
API_KEY marker yields the billing-specific message with the
authenticated flag unchanged (so it remains true). -/
theorem billing_marker_billing_message
    (s : AppState) (img : String) (m : Option String) (nowMs : Nat)
    (himg : s.image = some img)
    (_hb : containsBillingMarker m = true)
    (hent : errIncludes m "Requested entity was not found" = false)
    (hkey : errIncludes m "API_KEY" = false) :
    processImage s nowMs (CallResult.err m) =
      { s with error := some billingError, isProcessing := false } :=
  processImage_err_other s img m nowMs himg (by rw [hent, hkey]; rfl)

/-- Witness for the amended C4 at a concrete state and error text. -/
theorem billing_marker_billing_message_witness :
    wState.image = some wImageUrl
    ∧ containsBillingMarker (some quotaMsg) = true
    ∧ errIncludes (some quotaMsg) "Requested entity was not found" = false
    ∧ errIncludes (some quotaMsg) "API_KEY" = false
    ∧ processImage wState 3 (CallResult.err (some quotaMsg)) =
        { wState with error := some billingError, isProcessing := false } :=
  ⟨rfl, by decide, by decide, by decide,
    billing_marker_billing_message wState wImageUrl (some quotaMsg) 3 rfl
      (by decide) (by decide) (by decide)⟩

/-- Claim C5: over every sequence of handler invocations the history
never exceeds 10 items, and every history update prepends the new item
(keeping at most the 9 previous ones, evicting the oldest past the cap). -/
theorem history_cap_and_most_recent_first :
    ∀ (events : List Event) (item : HistoryItem) (prev : List HistoryItem),
      (run events).history.length ≤ 10
      ∧ historyUpdate item prev = item :: prev.take 9 := by
  intro events item prev
  exact ⟨foldl_step_inv (fun st => st.history.length ≤ 10) step_history_le
      events initialState (by decide),
    historyUpdate_eq item prev⟩

/-- Claim C6: in every reachable session state at most one of the
selected sub-preset and the free-text override is active; selecting a
sub-preset clears the free text and editing the free text clears the
selection. -/
theorem selection_mutual_exclusion :
    ∀ (events : List Event) (sub : SubPreset) (t : String),
      ((run events).selectedSubPreset = none ∨ (run events).customPrompt = "")
      ∧ (step (run events) (Event.selectSub sub)).customPrompt = ""
      ∧ (step (run events) (Event.editCustom t)).selectedSubPreset = none := by
  intro events sub t
  exact ⟨foldl_step_inv
      (fun st => st.selectedSubPreset = none ∨ st.customPrompt = "")
      step_preserves_exclusion events initialState (Or.inl rfl), rfl, rfl⟩

/-- Claim C7: with a source image present, the instruction text carried
by the issued request is the free-text override if non-empty, else the
selected sub-preset's instruction, else the fixed default. -/
theorem effective_instruction_sent (s : AppState) (img : String)
    (himg : s.image = some img) :
    ∃ req, requestOf s = some req
      ∧ req.promptText
          = specEffectiveInstruction s.customPrompt s.selectedSubPreset := by
  refine ⟨{ model := "gemini-2.5-flash-image",
            imageData := (img.splitOn ",")[1]?,
            imageMimeType := s.originalMimeType,
            promptText := promptText s.customPrompt s.selectedSubPreset },
    by simp only [requestOf, himg], ?_⟩
  show promptText s.customPrompt s.selectedSubPreset
      = specEffectiveInstruction s.customPrompt s.selectedSubPreset
  unfold promptText specEffectiveInstruction
  by_cases hc : s.customPrompt = ""
  · simp [hc]
  · simp [hc]

/-- Witness for C7 at a concrete state with a selected sub-preset. -/
theorem effective_instruction_sent_witness :
    wStatePreset.image = some wImageUrl
    ∧ ∃ req, requestOf wStatePreset = some req
        ∧ req.promptText = specEffectiveInstruction wStatePreset.customPrompt
            wStatePreset.selectedSubPreset :=
  ⟨rfl, effective_instruction_sent wStatePreset wImageUrl rfl⟩

/-- Claim C8: submitting with no source image leaves the whole session
state exactly as it was. -/
theorem no_source_image_is_noop (s : AppState) (nowMs : Nat)
    (call : CallResult) (h : s.image = none) :
    processImage s nowMs call = s :=
  processImage_none s nowMs call h

/-- Witness for C8 at the initial state. -/
theorem no_source_image_is_noop_witness :
    initialState.image = none
    ∧ processImage initialState 0 (CallResult.err none) = initialState :=
  ⟨rfl, no_source_image_is_noop initialState 0 (CallResult.err none) rfl⟩

/-- Claim C9: with a source image present the in-flight flag is false
after the workflow completes, on the success, structural-failure and
thrown-error paths alike. -/
theorem inflight_cleared_all_paths (s : AppState) (img : String)
    (nowMs : Nat) (call : CallResult) (himg : s.image = some img) :
    (processImage s nowMs call).isProcessing = false := by
  cases call with
  | ok resp =>
    cases hparts : partsOf resp with
    | none => rw [processImage_ok_noparts s img resp nowMs himg hparts]
    | some parts =>
      cases hfi : firstInlineData parts with
      | none => rw [processImage_ok_noinline s img resp parts nowMs himg hparts hfi]
      | some d => rw [processImage_ok_some s img resp parts d nowMs himg hparts hfi]
  | err m =>
    cases hc : (errIncludes m "Requested entity was not found"
        || errIncludes m "API_KEY") with
    | true => rw [processImage_err_auth s img m nowMs himg hc]
    | false => rw [processImage_err_other s img m nowMs himg hc]

/-- Witness for C9 at a concrete state on the thrown-error path. -/
theorem inflight_cleared_all_paths_witness :
    wState.image = some wImageUrl
    ∧ (processImage wState 1 (CallResult.err none)).isProcessing = false :=
  ⟨rfl, inflight_cleared_all_paths wState wImageUrl 1 (CallResult.err none) rfl⟩

/-- Claim C10: completing the credential-selection action sets the
authenticated flag to true in every path, whether the host bridge is
absent, resolves, or throws. -/
theorem login_always_authenticates (s : AppState) (b : BridgeBehavior) :
    (handleLogin s b).isLoggedIn = true := by
  cases b <;> rfl

end GeminiLens
